import Mathlib

/-!
Verification development for the JSON-to-Dart class generator
(`dart-generator.js`, `script.js`, and the ModelNewGenerator module).

The JavaScript source is shallowly embedded: JSON values become an
inductive type, the two generator classes become pure Lean functions over
explicit option/state records, and JS string assembly (`join`, `replace`,
template literals, `trim`) is reproduced by executable Lean functions on
`String` / `List Char`.  Braces and apostrophes inside generated Dart text
are written with `\x7b`, `\x7d` and `\x27` escapes.
-/

/-! ## Character classes (embedding the regex character classes of the source) -/

/-- The characters matched by the regex class `[a-z]`. -/
def lowerChars : List Char := "abcdefghijklmnopqrstuvwxyz".data

/-- The characters matched by the regex class `[A-Z]`. -/
def upperChars : List Char := "ABCDEFGHIJKLMNOPQRSTUVWXYZ".data

/-- The characters matched by the regex class `[0-9]`. -/
def digitChars : List Char := "0123456789".data

/-- Membership in `[a-z]`. -/
def isLowerAZ (c : Char) : Bool := lowerChars.contains c

/-- Membership in `[A-Z]`. -/
def isUpperAZ (c : Char) : Bool := upperChars.contains c

/-- Membership in `[0-9]`. -/
def isDigitCh (c : Char) : Bool := digitChars.contains c

/-- JS `String.prototype.toUpperCase` restricted to the ASCII letters that the
source ever feeds it (the `[a-z]` capture of `toCamelCase`). -/
def upperAZ (c : Char) : Char := ((lowerChars.zip upperChars).lookup c).getD c

/-- JS `String.prototype.toLowerCase` on one character, for the ASCII range
used by class names in the source (`className.toLowerCase()`). -/
def lowerAZ (c : Char) : Char := ((upperChars.zip lowerChars).lookup c).getD c

/-! ## Generic string helpers mirroring JS primitives -/

/-- Does the second list start with the first one? -/
def leadsWith : List Char → List Char → Bool
  | [], _ => true
  | _ :: _, [] => false
  | a :: as, b :: bs => a == b && leadsWith as bs

/-- Does the second list contain the first as a contiguous sublist? -/
def hasSubL (needle : List Char) : List Char → Bool
  | [] => leadsWith needle []
  | c :: rest => leadsWith needle (c :: rest) || hasSubL needle rest

/-- `strHasSub hay needle`: substring occurrence test on strings. -/
def strHasSub (hay needle : String) : Bool := hasSubL needle.data hay.data

/-- Does `s` start with `p`? -/
def strStartsWith (s p : String) : Bool := leadsWith p.data s.data

/-- Does `s` end with `suf`? -/
def strEndsWith (s suf : String) : Bool := leadsWith suf.data.reverse s.data.reverse

/-- JS `Array.prototype.join(sep)` on a list of strings. -/
def jsJoin (sep : String) : List String → String
  | [] => ""
  | [x] => x
  | x :: y :: rest => x ++ sep ++ jsJoin sep (y :: rest)

/-- JS whitespace test for `String.prototype.trim` (the characters that can
actually occur in the generated text). -/
def isWsCh (c : Char) : Bool := c == ' ' || c == '\n' || c == '\t' || c == '\r'

/-- JS `String.prototype.trim`. -/
def jsTrim (s : String) : String :=
  ⟨((s.data.dropWhile isWsCh).reverse.dropWhile isWsCh).reverse⟩

/-- JS `String.prototype.toLowerCase` (ASCII letters, as used on class names). -/
def jsToLower (s : String) : String := ⟨s.data.map lowerAZ⟩

/-! ## JSON values

A parsed JSON document (the result of `JSON.parse`).  Numbers carry their
canonical decimal text `lit` (used only when the document is printed back by
`JSON.stringify`) together with the `Number.isInteger` flag that drives all
typing decisions in the source. -/

inductive Json where
  | jnull : Json
  | str (s : String) : Json
  | bool (b : Bool) : Json
  | num (lit : String) (isInteger : Bool) : Json
  | arr (elems : List Json) : Json
  | obj (fields : List (String × Json)) : Json

/-- JS `Object.entries` / `Object.keys` with values, on a parsed JSON value.
For an object it is the fields in insertion order.  For an array or a string
JS enumerates the decimal indices, which all start with a digit and thus fail
the identifier check everywhere they are consumed; for numbers and booleans it
is empty.  (`Object.keys(null)` would throw a `TypeError` in JS; no code path
exercised by the claims reaches it, and it is rendered here as the empty
enumeration.) -/
def jsEntries : Json → List (String × Json)
  | .obj fs => fs
  | .arr xs => (xs.enum.map (fun p => (toString p.1, p.2)))
  | .str s => (s.data.enum.map (fun p => (toString p.1, Json.str ⟨[p.2]⟩)))
  | _ => []

/-! ## Snake-to-camel conversion

Both generator classes define the same
`toCamelCase(str) = str.replace(/_([a-z])/g, (m, letter) => letter.toUpperCase())`.
The regex engine scans left to right and consumes each non-overlapping match
`_x` (underscore followed by a lowercase ASCII letter), replacing it by the
uppercased letter. -/

def camelL : List Char → List Char
  | '_' :: c :: rest =>
    if isLowerAZ c then upperAZ c :: camelL rest else '_' :: camelL (c :: rest)
  | c :: rest => c :: camelL rest
  | [] => []

/-- `toCamelCase` of the source (identical copies in `DartGenerator` and
`ModelNewGenerator`). -/
def toCamelCase (s : String) : String := ⟨camelL s.data⟩

/-- Modelled from the spec words of claim C4: uppercase each letter
(of either case) immediately following an underscore and remove that
underscore.  This is the comparison definition for the refutation of C4;
the source's `toCamelCase` above only does this for lowercase letters. -/
def claimCamelL : List Char → List Char
  | '_' :: c :: rest =>
    if isLowerAZ c || isUpperAZ c then upperAZ c :: claimCamelL rest
    else '_' :: claimCamelL (c :: rest)
  | c :: rest => c :: claimCamelL rest
  | [] => []

/-- String version of `claimCamelL`. -/
def claimCamel (s : String) : String := ⟨claimCamelL s.data⟩

/-- Right fold formulation of the conversion actually performed by the code:
walking from the right, an underscore standing immediately before a character
that is (still) a lowercase ASCII letter is dropped and that letter
uppercased; every other character is kept. -/
def camelStep (c : Char) (acc : List Char) : List Char :=
  if c = '_' then
    match acc with
    | a :: as => if isLowerAZ a then upperAZ a :: as else '_' :: a :: as
    | [] => ['_']
  else c :: acc

/-- The fold formulation as a whole-string function. -/
def camelFold (s : String) : String := ⟨s.data.foldr camelStep []⟩

/-! ## Keyword list and identifier legality (identical in both generators) -/

/-- The reserved-word list duplicated in `DartGenerator.isDartKeyword` and
`ModelNewGenerator.isDartKeyword`. -/
def dartKeywords : List String :=
  ["abstract", "as", "assert", "async", "await", "break", "case", "catch", "class",
   "const", "continue", "default", "deferred", "do", "dynamic", "else", "enum",
   "export", "extends", "external", "factory", "false", "final", "finally", "for",
   "function", "get", "hide", "if", "implements", "import", "in", "interface", "is",
   "library", "mixin", "new", "null", "on", "operator", "part", "rethrow", "return",
   "set", "show", "static", "super", "switch", "sync", "this", "throw", "true", "try",
   "typedef", "var", "void", "while", "with", "yield"]

/-- `isDartKeyword` of the source. -/
def isDartKeyword (name : String) : Bool := dartKeywords.contains name

/-- First character class of the identifier regex `^[a-zA-Z_]`. -/
def isIdentStart (c : Char) : Bool := isLowerAZ c || isUpperAZ c || c == '_'

/-- Later character class `[a-zA-Z0-9_]`. -/
def isIdentChar (c : Char) : Bool := isLowerAZ c || isUpperAZ c || isDigitCh c || c == '_'

/-- The test `/^[a-zA-Z_][a-zA-Z0-9_]*$/.test(name)`. -/
def isIdentText (name : String) : Bool :=
  match name.data with
  | [] => false
  | c :: cs => isIdentStart c && cs.all isIdentChar

/-- `isValidDartVariableName` of the source (identical copies in both
generator classes): the regex test plus the raw name not being a keyword. -/
def isValidDartVariableName (name : String) : Bool :=
  isIdentText name && ! isDartKeyword name

/-- `capitalize` of `ModelNewGenerator`:
`str.charAt(0).toUpperCase() + str.slice(1)` (ASCII letters as produced by
camel-casing legal identifiers). -/
def capitalize (s : String) : String :=
  match s.data with
  | [] => ""
  | c :: cs => ⟨upperAZ c :: cs⟩

/-! ## JSON.stringify(value, null, 2)

Pretty printer used for the trailing comments of both renderers.  `ind` is
the indentation accumulated so far. -/

/-- Escaping of one character inside a JSON string literal. -/
def jsonEscChar (c : Char) : List Char :=
  if c = '"' then ['\\', '"']
  else if c = '\\' then ['\\', '\\']
  else if c = '\n' then ['\\', 'n']
  else if c = '\t' then ['\\', 't']
  else if c = '\r' then ['\\', 'r']
  else [c]

/-- A JSON string literal with quotes. -/
def jsonQuote (s : String) : String :=
  "\"" ++ (⟨(s.data.map jsonEscChar).flatten⟩ : String) ++ "\""

mutual

/-- `JSON.stringify(j, null, 2)` at accumulated indentation `ind`. -/
def stringifyAux (ind : String) : Json → String
  | .jnull => "null"
  | .str s => jsonQuote s
  | .bool b => if b then "true" else "false"
  | .num lit _ => lit
  | .arr [] => "[]"
  | .arr (x :: xs) =>
    "[\n" ++ jsJoin ",\n" (stringifyItems ind (x :: xs)) ++ "\n" ++ ind ++ "]"
  | .obj [] => "\x7b\x7d"
  | .obj (f :: fs) =>
    "\x7b\n" ++ jsJoin ",\n" (stringifyFields ind (f :: fs)) ++ "\n" ++ ind ++ "\x7d"

/-- One line per array element, indented two further spaces. -/
def stringifyItems (ind : String) : List Json → List String
  | [] => []
  | x :: xs => (ind ++ "  " ++ stringifyAux (ind ++ "  ") x) :: stringifyItems ind xs

/-- One line per object field, indented two further spaces. -/
def stringifyFields (ind : String) : List (String × Json) → List String
  | [] => []
  | (k, v) :: fs =>
    (ind ++ "  " ++ jsonQuote k ++ ": " ++ stringifyAux (ind ++ "  ") v) ::
      stringifyFields ind fs

end

/-- `JSON.stringify(j, null, 2)` at top level. -/
def stringify2 (j : Json) : String := stringifyAux "" j

/-- JS `String.prototype.split('\n')` on the character list. -/
def splitNL : List Char → List (List Char)
  | [] => [[]]
  | c :: rest =>
    if c = '\n' then [] :: splitNL rest
    else
      match splitNL rest with
      | h :: t => (c :: h) :: t
      | [] => [[c]]

/-- JS `String.prototype.split('\n')`. -/
def jsSplitNewline (s : String) : List String := (splitNL s.data).map (⟨·⟩)

/-! ## DartGenerator (src/script/dart-generator.js)

The option object held on the generator instance.  The constructor installs
the defaults below; `setOptions` merges a caller-supplied settings object
over them. -/

structure DgOptions where
  generateToJson : Bool
  generateCopyWith : Bool
  generateToString : Bool
  generateKeys : Bool
  useNum : Bool
  useSerializable : Bool
  useEquatable : Bool
  useDefaultValue : Bool
  generateComment : Bool

/-- The defaults installed by the `DartGenerator` constructor. -/
def dgDefaultOptions : DgOptions :=
  ⟨true, true, true, true, false, true, true, false, false⟩

/-- One property descriptor pushed by `extractProperties`. -/
structure DgProp where
  name : String
  type : String
  jsonKey : String
  value : Json

/-- `inferDartType` of the source: `null → dynamic`, then by `typeof`;
numbers split on `Number.isInteger` unless `useNum`; arrays recurse into
their first element; other objects map to `Map<String, dynamic>`. -/
def inferDartType (useNum : Bool) : Json → String
  | .jnull => "dynamic"
  | .str _ => "String"
  | .bool _ => "bool"
  | .num _ i => if useNum then "num" else if i then "int" else "double"
  | .arr [] => "List<dynamic>"
  | .arr (x :: _) => "List<" ++ inferDartType useNum x ++ ">"
  | .obj _ => "Map<String, dynamic>"

/-- `extractProperties`: walk the entries in order, skipping keys that fail
`isValidDartVariableName`, and push a descriptor for every other key. -/
def extractProperties (useNum : Bool) : List (String × Json) → List DgProp
  | [] => []
  | (k, v) :: rest =>
    if isValidDartVariableName k then
      ⟨toCamelCase k, inferDartType useNum v, k, v⟩ :: extractProperties useNum rest
    else extractProperties useNum rest

/-- `generateImports`. -/
def dgGenerateImports (o : DgOptions) : String :=
  jsJoin "\n"
    ((if o.useSerializable then ["import \x27package:json_annotation/json_annotation.dart\x27;"] else []) ++
     (if o.useEquatable then ["import \x27package:equatable/equatable.dart\x27;"] else []) ++
     (if o.useSerializable then ["", "part \x27model.g.dart\x27;"] else []))

/-- `generateClassDeclaration`. -/
def dgGenerateClassDeclaration (o : DgOptions) (className : String) : String :=
  jsJoin "\n"
    ((if o.useSerializable then ["@JsonSerializable()"] else []) ++
     ["class " ++ className ++ (if o.useEquatable then " extends Equatable" else "") ++ " \x7b"])

/-- `generateFields`. -/
def dgGenerateFields (o : DgOptions) (props : List DgProp) : String :=
  jsJoin "\n\n" (props.map (fun p =>
    jsJoin "\n"
      ((if o.generateKeys && o.useSerializable then
          ["  @JsonKey(name: \x27" ++ p.jsonKey ++ "\x27)"] else []) ++
       ["  final " ++ p.type ++ (if o.useDefaultValue then "" else "?") ++ " " ++ p.name ++ ";"])))

/-- `generateConstructor`: the JS marks a parameter `required` exactly when
`useDefaultValue` is on. -/
def dgGenerateConstructor (o : DgOptions) (className : String) (props : List DgProp) : String :=
  jsJoin "\n"
    ["  const " ++ className ++ "(\x7b",
     jsJoin ",\n" (props.map (fun p =>
       "    " ++ (if o.useDefaultValue then "required " else "") ++ "this." ++ p.name)),
     "  \x7d);"]

/-- `getDefaultValue`. -/
def getDefaultValue (t : String) : String :=
  if t = "String" then "\x27\x27"
  else if t = "int" then "0"
  else if t = "double" then "0.0"
  else if t = "num" then "0"
  else if t = "bool" then "false"
  else "null"

/-- `generateFromJson`. -/
def dgGenerateFromJson (o : DgOptions) (className : String) (props : List DgProp) : String :=
  if ! o.useSerializable then
    jsJoin "\n"
      ["  factory " ++ className ++ ".fromJson(Map<String, dynamic> json) \x7b",
       "    return " ++ className ++ "(",
       jsJoin ",\n" (props.map (fun p =>
         "      " ++ p.name ++ ": json[\x27" ++ p.jsonKey ++ "\x27]" ++
         (if p.type ≠ "dynamic" && ! o.useDefaultValue then " as " ++ p.type ++ "?"
          else if o.useDefaultValue then " as " ++ p.type ++ "? ?? " ++ getDefaultValue p.type
          else ""))),
       "    );",
       "  \x7d"]
  else
    "  factory " ++ className ++ ".fromJson(Map<String, dynamic> json) => _$" ++
      className ++ "FromJson(json);"

/-- `generateToJson`.  In the serializable branch the JS reads
`this.className`, a property that is never assigned anywhere on
`DartGenerator` (the class name travels only as a function argument), so the
string concatenation coerces the `undefined` value to the text
`"undefined"`. -/
def dgGenerateToJson (o : DgOptions) (props : List DgProp) : String :=
  if ! o.generateToJson then ""
  else if ! o.useSerializable then
    jsJoin "\n"
      ["",
       "  Map<String, dynamic> toJson() \x7b",
       "    return \x7b",
       jsJoin ",\n" (props.map (fun p => "      \x27" ++ p.jsonKey ++ "\x27: " ++ p.name)),
       "    \x7d;",
       "  \x7d"]
  else
    "\n  Map<String, dynamic> toJson() => _$" ++ "undefined" ++ "ToJson(this);"

/-- `generateCopyWith`. -/
def dgGenerateCopyWith (o : DgOptions) (className : String) (props : List DgProp) : String :=
  if ! o.generateCopyWith then ""
  else
    jsJoin "\n"
      ["",
       "  " ++ className ++ " copyWith(\x7b",
       jsJoin ",\n" (props.map (fun p =>
         "    " ++ p.type ++ (if o.useDefaultValue then "" else "?") ++ " " ++ p.name)),
       "  \x7d) \x7b",
       "    return " ++ className ++ "(",
       jsJoin ",\n" (props.map (fun p =>
         "      " ++ p.name ++ ": " ++ p.name ++ " ?? this." ++ p.name)),
       "    );",
       "  \x7d"]

/-- `generateToString`: nothing if the switch is off; the Equatable `props`
getter when `useEquatable` is also on; a free-form `toString` otherwise. -/
def dgGenerateToString (o : DgOptions) (className : String) (props : List DgProp) : String :=
  if ! o.generateToString then ""
  else if o.useEquatable then
    jsJoin "\n"
      ["",
       "  @override",
       "  List<Object?> get props => [" ++ jsJoin ", " (props.map (·.name)) ++ "];"]
  else
    jsJoin "\n"
      ["",
       "  @override",
       "  String toString() \x7b",
       "    return \x27" ++ className ++ "(" ++
         jsJoin ", " (props.map (fun p => p.name ++ ": $" ++ p.name)) ++ ")\x27;",
       "  \x7d"]

/-- `generateJsonComment`: the pretty-printed original document with each
line prefixed by `// `, preceded by a blank line; empty when the comment
switch is off. -/
def dgGenerateJsonComment (o : DgOptions) (orig : Json) : String :=
  if ! o.generateComment then ""
  else "\n\n" ++ jsJoin "\n" ((jsSplitNewline (stringify2 orig)).map (fun line => "// " ++ line))

/-- The `[...].filter(Boolean).join('\n')` at the end of `buildDartClass`:
empty strings are falsy in JS and are removed before joining. -/
def jsFilterJoin (parts : List String) : String :=
  jsJoin "\n" (parts.filter (fun s => ! (s == "")))

/-- `buildDartClass`: extract the properties, render every section and join
the non-empty ones. -/
def buildDartClass (o : DgOptions) (className : String) (jsonObj : Json) (orig : Json) : String :=
  jsFilterJoin
    [dgGenerateImports o,
     "",
     dgGenerateClassDeclaration o className,
     dgGenerateFields o (extractProperties o.useNum (jsEntries jsonObj)),
     "",
     dgGenerateConstructor o className (extractProperties o.useNum (jsEntries jsonObj)),
     "",
     dgGenerateFromJson o className (extractProperties o.useNum (jsEntries jsonObj)),
     dgGenerateToJson o (extractProperties o.useNum (jsEntries jsonObj)),
     dgGenerateCopyWith o className (extractProperties o.useNum (jsEntries jsonObj)),
     dgGenerateToString o className (extractProperties o.useNum (jsEntries jsonObj)),
     "\x7d",
     dgGenerateJsonComment o orig]

/-- `generateDartClass` after a successful `JSON.parse` of the input text.
Everything inside the `try` block — including the explicit
`throw new Error('Cannot generate class from empty array')` — is caught by
the method's own `catch`, which rethrows with the message prefixed by
`'Invalid JSON: '`.  An empty array is therefore surfaced with that prefix;
a non-empty array is rendered from its first element (the whole original
document still feeds the trailing comment). -/
def dgGenerateDartClass (o : DgOptions) (className : String) (parsed : Json) :
    Except String String :=
  match parsed with
  | .arr [] => .error ("Invalid JSON: " ++ "Cannot generate class from empty array")
  | .arr (x :: xs) => .ok (buildDartClass o className x (.arr (x :: xs)))
  | j => .ok (buildDartClass o className j j)

/-! ## The settings object assembled by script.js

`getCurrentSettings` builds a plain JS object with one boolean per checkbox;
reading any other property name from it yields `undefined`, which is falsy
wherever the generators test it. -/

/-- A JS object of boolean-valued properties, as a key/value list. -/
abbrev JsSettings := List (String × Bool)

/-- Property read with JS truthiness: an absent property is `undefined`,
which is falsy. -/
def getFlag (s : JsSettings) (k : String) : Bool := (s.lookup k).getD false

/-- `setOptions(options) { this.options = { ...this.options, ...options } }`:
every property present in `options` overwrites the instance value, every
absent one keeps it. -/
def dgSetOptions (old : DgOptions) (s : JsSettings) : DgOptions :=
  { generateToJson := (s.lookup "generateToJson").getD old.generateToJson,
    generateCopyWith := (s.lookup "generateCopyWith").getD old.generateCopyWith,
    generateToString := (s.lookup "generateToString").getD old.generateToString,
    generateKeys := (s.lookup "generateKeys").getD old.generateKeys,
    useNum := (s.lookup "useNum").getD old.useNum,
    useSerializable := (s.lookup "useSerializable").getD old.useSerializable,
    useEquatable := (s.lookup "useEquatable").getD old.useEquatable,
    useDefaultValue := (s.lookup "useDefaultValue").getD old.useDefaultValue,
    generateComment := (s.lookup "generateComment").getD old.generateComment }

/-- The states of the fourteen checkboxes wired up by `script.js`. -/
structure CheckboxState where
  generateToJson : Bool
  generateCopyWith : Bool
  generateToString : Bool
  generateKeys : Bool
  useNum : Bool
  useSerializable : Bool
  useEquatable : Bool
  useDefaultValue : Bool
  generateComment : Bool
  modelNew : Bool
  singletonPattern : Bool
  localSave : Bool
  localClear : Bool
  localGet : Bool

/-- `getCurrentSettings` of `script.js`: one property per checkbox key.
Note that no key named `generateJsonComment` is ever produced. -/
def currentSettings (r : CheckboxState) : JsSettings :=
  [("generateToJson", r.generateToJson),
   ("generateCopyWith", r.generateCopyWith),
   ("generateToString", r.generateToString),
   ("generateKeys", r.generateKeys),
   ("useNum", r.useNum),
   ("useSerializable", r.useSerializable),
   ("useEquatable", r.useEquatable),
   ("useDefaultValue", r.useDefaultValue),
   ("generateComment", r.generateComment),
   ("modelNew", r.modelNew),
   ("singletonPattern", r.singletonPattern),
   ("localSave", r.localSave),
   ("localClear", r.localClear),
   ("localGet", r.localGet)]

/-- The checkbox defaults listed in the spec's option table. -/
def defaultCheckboxes : CheckboxState :=
  ⟨true, true, true, true, false, true, true, false, false, false, false, false, false, false⟩

/-! ## ModelNewGenerator (src/unnamed/part_000)

The generator instance carries one piece of mutable state: the
`currentClassName` property, absent until `setCurrentClassName` is called
(`undefined` is falsy, and so is the empty string, hence the `|| 'Model'`
fallback). -/

structure MngState where
  currentClassName : Option String

/-- A fresh `new ModelNewGenerator()`: the property is not yet set. -/
def mngInitState : MngState := ⟨none⟩

/-- `setCurrentClassName`. -/
def mngSetCurrentClassName (_ : MngState) (className : String) : MngState :=
  ⟨some className⟩

/-- `getCurrentClassName`: `this.currentClassName || 'Model'`. -/
def getCurrentClassName (st : MngState) : String :=
  match st.currentClassName with
  | none => "Model"
  | some s => if s = "" then "Model" else s

/-- The `baseImports` array installed by the constructor, already joined by
`'\n'` as in `generate`. -/
def mngBaseImports : String :=
  jsJoin "\n"
    ["import \x27dart:convert\x27;",
     "",
     "import \x27../main.dart\x27;",
     "import \x27base.dart\x27;",
     ""]

/-- The five per-type accumulator arrays of `generateProperties`.  The JS
pushes one combined string `"<Type>Model <name>"` per nested-object key; here
the pair (synthesized type, identifier) is kept and rendered as
`type ++ " " ++ name`, which produces the identical text. -/
structure MngCats where
  strs : List String
  bools : List String
  ints : List String
  doubles : List String
  objs : List (String × String)

/-- The categorization loop of `generateProperties`: keys failing
`isValidDartVariableName` are skipped; strings, booleans, integer numbers,
fractional numbers and non-null non-array objects go to their buckets;
arrays and `null` (whose `typeof` is `'object'` but which fail the
`value !== null && !Array.isArray(value)` test) and any other value fall
through the `switch` with no bucket at all. -/
def mngCategorize : List (String × Json) → MngCats
  | [] => ⟨[], [], [], [], []⟩
  | (k, v) :: rest =>
    let c := mngCategorize rest
    if isValidDartVariableName k then
      match v with
      | .str _ => { c with strs := toCamelCase k :: c.strs }
      | .bool _ => { c with bools := toCamelCase k :: c.bools }
      | .num _ true => { c with ints := toCamelCase k :: c.ints }
      | .num _ false => { c with doubles := toCamelCase k :: c.doubles }
      | .obj _ => { c with objs := (capitalize (toCamelCase k) ++ "Model", toCamelCase k) :: c.objs }
      | _ => c
    else c

/-- The declaration text assembled by `generateProperties` from the buckets,
before the final `.trim()`. -/
def mngPropsText (c : MngCats) : String :=
  (if ! c.strs.isEmpty then "  late String " ++ jsJoin ",\n      " c.strs ++ ";\n" else "") ++
  (if ! c.bools.isEmpty then "  late bool " ++ jsJoin ",\n      " c.bools ++ ";\n" else "") ++
  (if ! c.ints.isEmpty then "  late int " ++ jsJoin ",\n      " c.ints ++ ";\n" else "") ++
  (if ! c.doubles.isEmpty then "  late double " ++ jsJoin ",\n      " c.doubles ++ ";\n" else "") ++
  String.join (c.objs.map (fun p => "  late " ++ p.1 ++ " " ++ p.2 ++ ";\n"))

/-- `generateProperties`: categorize, render, `trim`. -/
def mngGenerateProperties (entries : List (String × Json)) : String :=
  jsTrim (mngPropsText (mngCategorize entries))

/-- The per-key assignment lines of `generateFromJson` (each line ends in
`'\n'`); keys that fail the name check, arrays, and `null` contribute
nothing. -/
def mngFromJsonLines : List (String × Json) → String
  | [] => ""
  | (k, v) :: rest =>
    (if isValidDartVariableName k then
      match v with
      | .str _ => "    " ++ toCamelCase k ++ " = stringFromJson(json, \"" ++ k ++ "\");\n"
      | .bool _ => "    " ++ toCamelCase k ++ " = boolFromJson(json, \"" ++ k ++ "\");\n"
      | .num _ true => "    " ++ toCamelCase k ++ " = intFromJson(json, \"" ++ k ++ "\");\n"
      | .num _ false => "    " ++ toCamelCase k ++ " = doubleFromJson(json, \"" ++ k ++ "\");\n"
      | .obj _ =>
        "    " ++ toCamelCase k ++ " = " ++ capitalize (toCamelCase k) ++
          "Model.fromJson(json?[\"" ++ k ++ "\"] ?? \x7b\x7d);\n"
      | _ => ""
     else "") ++ mngFromJsonLines rest

/-- `generateFromJson`: named `fromJson` under the singleton switch,
`<currentClassName>.fromJson` otherwise; the `id` assignment comes first and
is unconditional. -/
def mngGenerateFromJson (st : MngState) (entries : List (String × Json))
    (hasSingleton : Bool) : String :=
  "  " ++ (if hasSingleton then "fromJson" else getCurrentClassName st ++ ".fromJson") ++
    "([Map<String, dynamic>? json]) \x7b\n" ++
  "    id = stringFromJson(json, \"id\");\n" ++
  mngFromJsonLines entries ++
  "  \x7d"

/-- `generateSaveMethod`. -/
def mngGenerateSaveMethod (className : String) : String :=
  jsJoin "\n"
    ["  save() \x7b",
     "    Prefs.setString(\x27" ++ jsToLower className ++ "\x27, jsonEncode(toJson()));",
     "  \x7d"]

/-- `generateClearMethod`. -/
def mngGenerateClearMethod (className : String) : String :=
  jsJoin "\n"
    ["  clear() \x7b",
     "    Prefs.remove(\x27" ++ jsToLower className ++ "\x27);",
     "    fromJson();",
     "  \x7d"]

/-- `generateGetMethod`. -/
def mngGenerateGetMethod (className : String) : String :=
  jsJoin "\n"
    ["  get() \x7b",
     "    String data = Prefs.getString(\x27" ++ jsToLower className ++ "\x27) ?? \x27\x7b\x7d\x27;",
     "    fromJson(jsonDecode(data));",
     "  \x7d"]

/-- The assignment strings of `generateToJson` (before joining): one per key
passing the name check; non-null, non-array objects call `.toJson()` on the
field, every other value is referenced directly. -/
def mngToJsonAssigns (entries : List (String × Json)) : List String :=
  (entries.filter (fun kv => isValidDartVariableName kv.1)).map (fun kv =>
    match kv.2 with
    | .obj _ => "        \"" ++ kv.1 ++ "\": " ++ toCamelCase kv.1 ++ ".toJson()"
    | _ => "        \"" ++ kv.1 ++ "\": " ++ toCamelCase kv.1)

/-- `generateToJson`: always emitted, always starting with the `"id"` entry. -/
def mngGenerateToJson (entries : List (String × Json)) : String :=
  "  @override\n  Map<String, dynamic> toJson() => \x7b\n" ++
  "        \"id\": id,\n" ++
  jsJoin ",\n" (mngToJsonAssigns entries) ++ ",\n" ++
  "      \x7d;"

/-- `generate(className, jsonData, settings)`.  An array input is replaced by
its first element (error on an empty array); the section texts are
concatenated in the fixed order of the source.  Settings are read off the
caller's JS object with `getFlag`; note that the trailing-comment test reads
the property named `generateJsonComment`. -/
def mngGenerate (st : MngState) (className : String) (jsonData : Json)
    (settings : JsSettings) : Except String String :=
  match jsonData with
  | .arr [] => .error "Cannot generate class from empty array"
  | other =>
    let d := match other with
             | .arr (x :: _) => x
             | j => j
    let entries := jsEntries d
    .ok <|
      mngBaseImports ++
      "class " ++ className ++ " extends Model \x7b\n" ++
      (if getFlag settings "singletonPattern" then
        "  " ++ className ++ "._();\n" ++
        "  static " ++ className ++ " i = " ++ className ++ "._();\n\n"
       else "") ++
      mngGenerateProperties entries ++ "\n\n" ++
      mngGenerateFromJson st entries (getFlag settings "singletonPattern") ++ "\n\n" ++
      (if getFlag settings "localSave" then mngGenerateSaveMethod className ++ "\n\n" else "") ++
      (if getFlag settings "localClear" then mngGenerateClearMethod className ++ "\n\n" else "") ++
      (if getFlag settings "localGet" then mngGenerateGetMethod className ++ "\n\n" else "") ++
      mngGenerateToJson entries ++ "\n" ++
      "\x7d\n" ++
      (if getFlag settings "generateJsonComment" then
        "\n/*\n" ++ stringify2 d ++ "\n*/"
       else "")

/-- The identifiers introduced by the field declarations of
`generateProperties` (the names in the four primitive buckets plus the
identifier half of each nested-object declaration). -/
def mngDeclIdents (c : MngCats) : List String :=
  c.strs ++ c.bools ++ c.ints ++ c.doubles ++ c.objs.map Prod.snd

/-- The identifiers referenced by the map literal of `generateToJson`: the
unconditional `id` plus the camel-cased identifier of every key passing the
name check (nested-object entries reference the same identifier through
`.toJson()`). -/
def mngToJsonRefIdents (entries : List (String × Json)) : List String :=
  "id" :: (entries.filter (fun kv => isValidDartVariableName kv.1)).map
    (fun kv => toCamelCase kv.1)

/-- Is a result successful? -/
def isOkE : Except String String → Bool
  | .ok _ => true
  | .error _ => false

/-- The rendered text of a successful result (errors are tagged, only used to
state facts about results already known to be successful). -/
def exceptOut : Except String String → String
  | .ok s => s
  | .error e => "ERROR: " ++ e

/-- The checkbox state of the C6 failing input: comment switch on, nested
mode selected, everything else at its default. -/
def commentOnBoxes : CheckboxState :=
  { defaultCheckboxes with generateComment := true, modelNew := true }

/-! ## Helper lemmas: substring occurrence -/

theorem leadsWith_append (n rest : List Char) : leadsWith n (n ++ rest) = true := by
  induction n with
  | nil => rfl
  | cons a as ih => simp [leadsWith, ih]

theorem hasSubL_of_leadsWith {n l : List Char} (h : leadsWith n l = true) :
    hasSubL n l = true := by
  cases l with
  | nil => simpa [hasSubL] using h
  | cons c rest => simp [hasSubL, h]

theorem hasSubL_append_left (pre : List Char) {n l : List Char}
    (h : hasSubL n l = true) : hasSubL n (pre ++ l) = true := by
  induction pre with
  | nil => simpa using h
  | cons p ps ih => simp [hasSubL, ih]

/-! ## Helper lemmas: ASCII character classes -/

theorem lowerChars_spec :
    lowerChars.all (fun c => isUpperAZ (upperAZ c) && ! isUpperAZ c && ! (c == '_')) = true := by
  decide

theorem upperChars_spec : upperChars.all (fun c => ! isLowerAZ c) = true := by
  decide

theorem ne_underscore_of_lower {c : Char} (h : isLowerAZ c = true) : c ≠ '_' := by
  intro he
  have hm := List.mem_of_elem_eq_true h
  have := List.all_eq_true.mp lowerChars_spec c hm
  rw [he] at this
  simp at this

theorem isUpperAZ_upperAZ {c : Char} (h : isLowerAZ c = true) : isUpperAZ (upperAZ c) = true := by
  have hm := List.mem_of_elem_eq_true h
  have := List.all_eq_true.mp lowerChars_spec c hm
  simp at this
  exact this.1.1

theorem not_lower_upperAZ {c : Char} (h : isLowerAZ c = true) : isLowerAZ (upperAZ c) = false := by
  have hu := isUpperAZ_upperAZ h
  have hm := List.mem_of_elem_eq_true hu
  have := List.all_eq_true.mp upperChars_spec _ hm
  simpa using this

theorem camelL_id_of_no_underscore (l : List Char) (h : ∀ c ∈ l, c ≠ '_') :
    camelL l = l := by
  induction l using camelL.induct with
  | case1 c rest hlow ih =>
    exact absurd rfl (h '_' (by simp))
  | case2 c rest hlow ih =>
    exact absurd rfl (h '_' (by simp))
  | case3 c rest hx ih =>
    have hc : c ≠ '_' := h c (by simp)
    have hr : ∀ d ∈ rest, d ≠ '_' := fun d hd => h d (by simp [hd])
    simp [camelL, ih hr]
  | case4 => rfl

theorem camelL_id_of_noUpper (l : List Char)
    (h : (camelL l).all (fun c => ! isUpperAZ c) = true) : camelL l = l := by
  induction l using camelL.induct with
  | case1 c rest hlow ih =>
    rw [camelL, if_pos hlow] at h
    have := List.all_eq_true.mp h (upperAZ c) (by simp)
    rw [isUpperAZ_upperAZ hlow] at this
    simp at this
  | case2 c rest hlow ih =>
    rw [camelL, if_neg hlow] at h ⊢
    have h2 : (camelL (c :: rest)).all (fun c => ! isUpperAZ c) = true := by
      rw [List.all_cons] at h
      exact (Bool.and_eq_true_iff.mp h).2
    rw [ih h2]
  | case3 c rest hx ih =>
    have he : camelL (c :: rest) = c :: camelL rest := by
      simp [camelL]
    rw [he] at h
    rw [List.all_cons] at h
    have h2 := (Bool.and_eq_true_iff.mp h).2
    rw [he, ih h2]
  | case4 => rfl

theorem not_upper_of_lower {c : Char} (h : isLowerAZ c = true) : isUpperAZ c = false := by
  have hm := List.mem_of_elem_eq_true h
  have := List.all_eq_true.mp lowerChars_spec c hm
  simp at this
  exact this.1.2

theorem dartKeywords_lower : dartKeywords.all (fun k => k.data.all isLowerAZ) = true := by
  decide

theorem keyword_data_lower {s : String} (h : isDartKeyword s = true) :
    s.data.all isLowerAZ = true := by
  have hm := List.mem_of_elem_eq_true h
  exact List.all_eq_true.mp dartKeywords_lower s hm

theorem toCamelCase_keyword (s : String) :
    isDartKeyword (toCamelCase s) = isDartKeyword s := by
  by_cases h : isDartKeyword s = true
  · have hall := keyword_data_lower h
    have hid : camelL s.data = s.data :=
      camelL_id_of_no_underscore _ (fun c hc =>
        ne_underscore_of_lower (List.all_eq_true.mp hall c hc))
    have he : toCamelCase s = s := String.ext hid
    rw [he, h]
  · have h' : isDartKeyword s = false := by simpa using h
    rw [h']
    by_contra hcg
    have hc' : isDartKeyword (toCamelCase s) = true := by simpa using hcg
    have hall := keyword_data_lower hc'
    have hnoup : (camelL s.data).all (fun c => ! isUpperAZ c) = true := by
      rw [List.all_eq_true] at hall ⊢
      intro c hcmem
      have hl := hall c hcmem
      simp only [not_upper_of_lower hl]
      rfl
    have hid := camelL_id_of_noUpper _ hnoup
    have he : toCamelCase s = s := String.ext hid
    rw [he] at hc'
    rw [hc'] at h'
    exact Bool.true_eq_false.mp h'

theorem lower_underscore_false : isLowerAZ '_' = false := by decide

theorem camelStep_underscore_twice (F : List Char) :
    camelStep '_' (camelStep '_' F) = '_' :: camelStep '_' F := by
  cases F with
  | nil => decide
  | cons a as =>
    by_cases ha : isLowerAZ a
    · simp [camelStep, ha, not_lower_upperAZ ha]
    · simp [camelStep, ha, lower_underscore_false]

theorem camelL_eq_foldr (l : List Char) : camelL l = l.foldr camelStep [] := by
  induction l using camelL.induct with
  | case1 c rest hlow ih =>
    have hc' : c ≠ '_' := ne_underscore_of_lower hlow
    simp only [List.foldr]
    rw [camelL, if_pos hlow, ih]
    simp [camelStep, hc', hlow]
  | case2 c rest hlow ih =>
    simp only [List.foldr] at ih ⊢
    rw [camelL, if_neg hlow, ih]
    by_cases hc' : c = '_'
    · subst hc'
      exact (camelStep_underscore_twice _).symm
    · simp [camelStep, hc', hlow]
  | case3 c rest hx ih =>
    cases rest with
    | nil =>
      by_cases hc' : c = '_'
      · subst hc'; decide
      · simp [camelL, camelStep, hc']
    | cons r rs =>
      have hc' : c ≠ '_' := fun he => hx r rs he rfl
      have he : camelL (c :: r :: rs) = c :: camelL (r :: rs) := by
        simp [camelL]
      simp only [List.foldr] at ih ⊢
      rw [he, ih]
      simp [camelStep, hc']
  | case4 => rfl
/-- C7: for every JSON object, `extractProperties` produces exactly one
descriptor per key that matches the identifier regex and whose camel-cased
form is not a reserved keyword, zero descriptors for any other key, and the
descriptors keep the object's own key enumeration order.  (The code checks
the keyword list against the raw key; this coincides with the claim's
camel-cased check because every keyword is pure lowercase and camel-casing a
key either leaves it unchanged or introduces an uppercase letter.) -/
theorem claim7_inference_per_key (useNum : Bool) (fs : List (String × Json)) :
    extractProperties useNum fs =
      (fs.filter (fun kv => isIdentText kv.1 && ! isDartKeyword (toCamelCase kv.1))).map
        (fun kv => ⟨toCamelCase kv.1, inferDartType useNum kv.2, kv.1, kv.2⟩) := by
  have hpred : (fun kv : String × Json => isIdentText kv.1 && ! isDartKeyword (toCamelCase kv.1)) =
      (fun kv : String × Json => isIdentText kv.1 && ! isDartKeyword kv.1) := by
    funext kv
    rw [toCamelCase_keyword]
  rw [hpred]
  induction fs with
  | nil => rfl
  | cons kv rest ih =>
    obtain ⟨k, v⟩ := kv
    simp only [extractProperties, List.filter_cons, isValidDartVariableName]
    by_cases h1 : isIdentText k
    · by_cases h2 : isDartKeyword k
      · simp [h1, h2, ih]
      · simp [h1, h2, ih]
    · simp [h1, ih]

/-- C8: in the Standard renderer the string-representation section is coupled
to the equality switch: with `generateToString` and `useEquatable` both on it
is exactly the Equatable `props` getter (the ordered list of field values)
and no `toString` method; with `generateToString` on and `useEquatable` off
it is exactly a `toString` method; with `generateToString` off it is empty. -/
theorem claim8_tostring_equatable_coupling (c : String) (props : List DgProp) (o : DgOptions) :
    dgGenerateToString { o with generateToString := false } c props = "" ∧
    dgGenerateToString { o with generateToString := true, useEquatable := true } c props =
      "\n" ++ "  @override" ++ "\n" ++ "  List<Object?> get props => [" ++
        jsJoin ", " (props.map (·.name)) ++ "];" ∧
    dgGenerateToString { o with generateToString := true, useEquatable := false } c props =
      "\n" ++ "  @override" ++ "\n" ++ "  String toString() \x7b" ++ "\n" ++
        "    return \x27" ++ c ++ "(" ++
        jsJoin ", " (props.map (fun p => p.name ++ ": $" ++ p.name)) ++ ")\x27;" ++ "\n" ++
        "  \x7d" := by
  refine ⟨rfl, ?_, ?_⟩
  · show jsJoin "\n" _ = _
    simp only [jsJoin, String.append_assoc]
    rfl
  · show jsJoin "\n" _ = _
    simp only [jsJoin, String.append_assoc]
    rfl

/-- C4 counterexample: the key `a_B` passes the legality check, but the
code's conversion leaves it unchanged, while the claim (underscore removed
before a letter of either case) demands `aB`, as computed by the spec-worded
`claimCamel`. -/
theorem claim4_cex :
    isValidDartVariableName "a_B" = true ∧
    toCamelCase "a_B" = "a_B" ∧
    claimCamel "a_B" = "aB" ∧
    toCamelCase "a_B" ≠ claimCamel "a_B" :=
  ⟨by decide, by decide, by decide, by decide⟩

/-- C4 amended: the derived identifier uppercases each LOWERCASE letter
immediately following an underscore and removes that underscore, leaving
every other character (including underscores followed by uppercase letters,
digits, further underscores, or nothing) unchanged — `toCamelCase` agrees
with the right-fold formulation `camelFold` of exactly that rule. -/
theorem claim4_amended (s : String) : toCamelCase s = camelFold s :=
  String.ext (camelL_eq_foldr s.data)

/-- C1 counterexample: under default options (`useDefaultValue` off) the
constructor generated for `\x7b"id": 1\x7d` marks no parameter `required`,
refuting the claim's "required iff the default-value switch is off". -/
theorem claim1_cex :
    dgGenerateConstructor dgDefaultOptions "User"
        (extractProperties dgDefaultOptions.useNum (jsEntries (.obj [("id", .num "1" true)]))) =
      "  const User(\x7b\n    this.id\n  \x7d);" ∧
    strHasSub (dgGenerateConstructor dgDefaultOptions "User"
        (extractProperties dgDefaultOptions.useNum (jsEntries (.obj [("id", .num "1" true)]))))
      "required" = false :=
  ⟨by decide, by decide⟩

/-- C1 amended: the named-parameter constructor takes exactly the rendered
fields in order, and marks each parameter `required` iff `useDefaultValue`
is ON (so under default options, where the switch is off, none is marked). -/
theorem claim1_amended (o : DgOptions) (c : String) (props : List DgProp) :
    dgGenerateConstructor o c props =
      "  const " ++ c ++ "(\x7b" ++ "\n" ++
        jsJoin ",\n" (props.map (fun p =>
          "    " ++ (if o.useDefaultValue then "required " else "") ++ "this." ++ p.name)) ++
      "\n" ++ "  \x7d);" := by
  show jsJoin "\n" _ = _
  simp only [jsJoin, String.append_assoc]

set_option maxRecDepth 8192 in
/-- C3 (code bug): with the to-json and serialization switches both on, the
emitted serialization method is `toJson() => _$undefinedToJson(this);` —
`DartGenerator.generateToJson` reads `this.className`, which is never
assigned, so the helper name is NOT `_$<Class>ToJson` for the class name of
the render call (while `fromJson` does delegate to `_$UserFromJson`).
Evaluated at className `User`, json `\x7b"id": 1\x7d`, default options
(both switches on). -/
theorem claim3_undefined_delegation :
    dgGenerateDartClass dgDefaultOptions "User" (.obj [("id", .num "1" true)]) =
      .ok (buildDartClass dgDefaultOptions "User" (.obj [("id", .num "1" true)])
        (.obj [("id", .num "1" true)])) ∧
    strHasSub (buildDartClass dgDefaultOptions "User" (.obj [("id", .num "1" true)])
        (.obj [("id", .num "1" true)]))
      "Map<String, dynamic> toJson() => _$undefinedToJson(this);" = true ∧
    strHasSub (buildDartClass dgDefaultOptions "User" (.obj [("id", .num "1" true)])
        (.obj [("id", .num "1" true)])) "_$UserToJson" = false ∧
    strHasSub (buildDartClass dgDefaultOptions "User" (.obj [("id", .num "1" true)])
        (.obj [("id", .num "1" true)])) "_$UserFromJson(json)" = true :=
  ⟨rfl, by decide, by decide, by decide⟩

/-- C5 counterexample: for the empty-array input the Standard renderer's own
catch block re-wraps the empty-template failure, so the surfaced error is of
the invalid-JSON (ParseError) kind — it starts with `Invalid JSON: ` and is
not the distinct bare empty-template message, refuting the claim for the
Standard renderer (evaluated at className `User`, default options). -/
theorem claim5_cex :
    dgGenerateDartClass dgDefaultOptions "User" (.arr []) =
      .error "Invalid JSON: Cannot generate class from empty array" ∧
    strStartsWith "Invalid JSON: Cannot generate class from empty array" "Invalid JSON: " = true ∧
    ("Invalid JSON: Cannot generate class from empty array" : String) ≠
      "Cannot generate class from empty array" :=
  ⟨rfl, by decide, by decide⟩

/-- C5 amended: for every class name and option set an empty-array input
fails in both renderers with no (partial) output; the Nested renderer fails
with the distinct empty-template message, while the Standard renderer's
catch-all surfaces the same failure wrapped into the invalid-JSON kind. -/
theorem claim5_amended (o : DgOptions) (c c2 : String) (st : MngState) (s : JsSettings) :
    dgGenerateDartClass o c (.arr []) =
      .error "Invalid JSON: Cannot generate class from empty array" ∧
    mngGenerate st c2 (.arr []) s = .error "Cannot generate class from empty array" :=
  ⟨rfl, rfl⟩

set_option maxRecDepth 8192 in
/-- C9 counterexample: the Nested renderer's output is not a function of the
`(className, json, options)` triple alone — with the same triple but a stale
`currentClassName` left by an earlier call (`A`) the deserializer is named
`A.fromJson` instead of `B.fromJson`, so the rendered texts differ. -/
theorem claim9_cex :
    exceptOut (mngGenerate ⟨some "A"⟩ "B" (.obj [("x", .num "1" true)]) []) ≠
      exceptOut (mngGenerate ⟨some "B"⟩ "B" (.obj [("x", .num "1" true)]) []) ∧
    strHasSub (exceptOut (mngGenerate ⟨some "A"⟩ "B" (.obj [("x", .num "1" true)]) []))
      "  A.fromJson(" = true ∧
    strHasSub (exceptOut (mngGenerate ⟨some "B"⟩ "B" (.obj [("x", .num "1" true)]) []))
      "  B.fromJson(" = true :=
  ⟨by decide, by decide, by decide⟩

/-- C9 amended: rendering is deterministic (the embedding of each renderer is
a pure function of its arguments and instance state), and the top-level
convert flow is reentrant: the Standard path re-installs every option from
the current settings object, so no earlier options state can influence the
text, and the Nested path sets `currentClassName` from the current class
name before generating, so no earlier class-name state can influence the
text; but a bare Nested `generate` call does read the mutable
`currentClassName` (see the counterexample). -/
theorem claim9_amended (o₁ o₂ : DgOptions) (r : CheckboxState) (c : String) (j : Json)
    (st₁ st₂ : MngState) :
    dgGenerateDartClass (dgSetOptions o₁ (currentSettings r)) c j =
      dgGenerateDartClass (dgSetOptions o₂ (currentSettings r)) c j ∧
    mngGenerate (mngSetCurrentClassName st₁ c) c j (currentSettings r) =
      mngGenerate (mngSetCurrentClassName st₂ c) c j (currentSettings r) :=
  ⟨rfl, rfl⟩


set_option maxRecDepth 8192 in
/-- C6 (code bug): with the `generateComment` switch on, the Nested renderer
emits no trailing JSON comment: `ModelNewGenerator.generate` tests
`settings.generateJsonComment`, a property that the settings object built by
`script.js` never contains, so the test always sees a falsy `undefined`.
Under the same option set the Standard renderer does end with the
pretty-printed JSON comment.  Evaluated at className `User`,
json `\x7b"id": 1\x7d`. -/
theorem claim6_nested_comment_never_emitted :
    commentOnBoxes.generateComment = true ∧
    getFlag (currentSettings commentOnBoxes) "generateJsonComment" = false ∧
    isOkE (mngGenerate (mngSetCurrentClassName mngInitState "User") "User"
      (.obj [("id", .num "1" true)]) (currentSettings commentOnBoxes)) = true ∧
    strHasSub (exceptOut (mngGenerate (mngSetCurrentClassName mngInitState "User") "User"
      (.obj [("id", .num "1" true)]) (currentSettings commentOnBoxes))) "/*" = false ∧
    strEndsWith (exceptOut (mngGenerate (mngSetCurrentClassName mngInitState "User") "User"
      (.obj [("id", .num "1" true)]) (currentSettings commentOnBoxes))) "\x7d\n" = true ∧
    strEndsWith (exceptOut (dgGenerateDartClass
      (dgSetOptions dgDefaultOptions (currentSettings commentOnBoxes)) "User"
      (.obj [("id", .num "1" true)]))) "// \x7b\n//   \"id\": 1\n// \x7d" = true :=
  ⟨rfl, by decide, by decide, by decide, by decide, by decide⟩

theorem toCamelCase_eq_id {k : String} (h : toCamelCase k = "id") : k = "id" := by
  have hd : camelL k.data = "id".data := congrArg String.data h
  have hnoup : (camelL k.data).all (fun c => ! isUpperAZ c) = true := by
    rw [hd]; decide
  have hid := camelL_id_of_noUpper k.data hnoup
  rw [hid] at hd
  exact String.ext hd

theorem declIdents_mem_cons {x : String} (k : String) (v : Json) (rest : List (String × Json))
    (h : x ∈ mngDeclIdents (mngCategorize ((k, v) :: rest))) :
    x = toCamelCase k ∨ x ∈ mngDeclIdents (mngCategorize rest) := by
  by_cases hv : isValidDartVariableName k
  · cases v with
    | jnull =>
      simp only [mngCategorize, hv, if_true] at h
      exact Or.inr h
    | str s =>
      simp only [mngCategorize, hv, if_true, mngDeclIdents, List.mem_append,
        List.mem_cons, List.mem_map] at h ⊢
      tauto
    | bool b =>
      simp only [mngCategorize, hv, if_true, mngDeclIdents, List.mem_append,
        List.mem_cons, List.mem_map] at h ⊢
      tauto
    | num lit b =>
      cases b <;>
        simp only [mngCategorize, hv, if_true, mngDeclIdents, List.mem_append,
          List.mem_cons, List.mem_map] at h ⊢ <;>
        tauto
    | arr xs =>
      simp only [mngCategorize, hv, if_true] at h
      exact Or.inr h
    | obj fs =>
      simp only [mngCategorize, hv, if_true, mngDeclIdents, List.mem_append,
        List.mem_cons, List.mem_map, List.map_cons] at h ⊢
      tauto
  · simp only [mngCategorize, hv, if_false] at h
    exact Or.inr h

theorem declIdents_id_mem (entries : List (String × Json))
    (h : "id" ∈ mngDeclIdents (mngCategorize entries)) :
    "id" ∈ entries.map Prod.fst := by
  induction entries with
  | nil => simp [mngCategorize, mngDeclIdents] at h
  | cons kv rest ih =>
    obtain ⟨k, v⟩ := kv
    rw [List.map_cons, List.mem_cons]
    rcases declIdents_mem_cons k v rest h with h1 | h2
    · exact Or.inl (toCamelCase_eq_id h1.symm).symm
    · exact Or.inr (ih h2)


/-- C2 amended: the Nested renderer unconditionally assigns `id` from the
JSON key `"id"` as the first statement of its deserializer, and the
always-emitted serialization map always contains an `"id"` entry; but it does
NOT declare a synthetic `id` field — a field named `id` is declared only when
the sample itself has an `"id"` key (the identifier is otherwise expected
from the `Model` superclass). -/
theorem claim2_amended (st : MngState) (entries : List (String × Json)) (hs : Bool) :
    strHasSub (mngGenerateFromJson st entries hs) "    id = stringFromJson(json, \"id\");" = true ∧
    strHasSub (mngGenerateToJson entries) "\"id\": id," = true ∧
    ("id" ∈ mngDeclIdents (mngCategorize entries) → "id" ∈ entries.map Prod.fst) := by
  refine ⟨?_, ?_, declIdents_id_mem entries⟩
  · unfold strHasSub mngGenerateFromJson
    simp only [String.data_append, List.append_assoc]
    apply hasSubL_append_left
    apply hasSubL_append_left
    apply hasSubL_append_left
    exact rfl
  · unfold strHasSub mngGenerateToJson
    simp only [String.data_append, List.append_assoc]
    apply hasSubL_append_left
    exact rfl

/-- C2 witness: the amended statement evaluated at the entries of
`\x7b"id": "x"\x7d` (singleton off, fresh generator state), discharging the
declaration-implication at a sample that does declare `id`. -/
theorem claim2_witness :
    strHasSub (mngGenerateFromJson mngInitState (jsEntries (Json.obj [("id", Json.str "x")])) false)
      "    id = stringFromJson(json, \"id\");" = true ∧
    strHasSub (mngGenerateToJson (jsEntries (Json.obj [("id", Json.str "x")])))
      "\"id\": id," = true ∧
    "id" ∈ (jsEntries (Json.obj [("id", Json.str "x")])).map Prod.fst := by
  have h := claim2_amended mngInitState (jsEntries (Json.obj [("id", Json.str "x")])) false
  exact ⟨h.1, h.2.1, h.2.2 (by decide)⟩

/-- C2 counterexample: for the sample `\x7b"name": "Ann"\x7d` the Nested
renderer's field-declaration section is exactly `late String name;` — no
synthetic `id` string field is included in the generated class text, even
though `fromJson` and `toJson` both reference `id`. -/
theorem claim2_cex :
    mngGenerateProperties (jsEntries (Json.obj [("name", Json.str "Ann")])) =
      "late String name;" ∧
    strHasSub (mngGenerateProperties (jsEntries (Json.obj [("name", Json.str "Ann")])))
      "id" = false ∧
    mngDeclIdents (mngCategorize (jsEntries (Json.obj [("name", Json.str "Ann")]))) = ["name"] :=
  ⟨by decide, by decide, by decide⟩

theorem mngCategorize_skip_arr (pre post : List (String × Json)) (k : String) (l : List Json) :
    mngCategorize (pre ++ (k, Json.arr l) :: post) = mngCategorize (pre ++ post) := by
  induction pre with
  | nil =>
    by_cases hv : isValidDartVariableName k <;> simp [mngCategorize, hv]
  | cons kv pre' ih =>
    obtain ⟨k', v'⟩ := kv
    simp only [List.cons_append, mngCategorize, List.append_eq, ih]

theorem mngCategorize_skip_null (pre post : List (String × Json)) (k : String) :
    mngCategorize (pre ++ (k, Json.jnull) :: post) = mngCategorize (pre ++ post) := by
  induction pre with
  | nil =>
    by_cases hv : isValidDartVariableName k <;> simp [mngCategorize, hv]
  | cons kv pre' ih =>
    obtain ⟨k', v'⟩ := kv
    simp only [List.cons_append, mngCategorize, List.append_eq, ih]

theorem mngFromJsonLines_skip_arr (pre post : List (String × Json)) (k : String) (l : List Json) :
    mngFromJsonLines (pre ++ (k, Json.arr l) :: post) = mngFromJsonLines (pre ++ post) := by
  induction pre with
  | nil =>
    by_cases hv : isValidDartVariableName k <;> simp [mngFromJsonLines, hv]
  | cons kv pre' ih =>
    obtain ⟨k', v'⟩ := kv
    simp only [List.cons_append, mngFromJsonLines, List.append_eq, ih]

theorem mngFromJsonLines_skip_null (pre post : List (String × Json)) (k : String) :
    mngFromJsonLines (pre ++ (k, Json.jnull) :: post) = mngFromJsonLines (pre ++ post) := by
  induction pre with
  | nil =>
    by_cases hv : isValidDartVariableName k <;> simp [mngFromJsonLines, hv]
  | cons kv pre' ih =>
    obtain ⟨k', v'⟩ := kv
    simp only [List.cons_append, mngFromJsonLines, List.append_eq, ih]

theorem mngToJsonAssigns_mem_arr (pre post : List (String × Json)) (k : String) (l : List Json)
    (hv : isValidDartVariableName k = true) :
    ("        \"" ++ k ++ "\": " ++ toCamelCase k) ∈
      mngToJsonAssigns (pre ++ (k, Json.arr l) :: post) := by
  unfold mngToJsonAssigns
  rw [List.filter_append, List.filter_cons]
  simp only [hv, if_true, List.map_append, List.map_cons]
  exact List.mem_append_right _ (List.mem_cons_self _ _)

theorem mngToJsonRefIdents_mem_arr (pre post : List (String × Json)) (k : String) (l : List Json)
    (hv : isValidDartVariableName k = true) :
    toCamelCase k ∈ mngToJsonRefIdents (pre ++ (k, Json.arr l) :: post) := by
  unfold mngToJsonRefIdents
  apply List.mem_cons_of_mem
  have hmem : (k, Json.arr l) ∈
      List.filter (fun kv => isValidDartVariableName kv.1) (pre ++ (k, Json.arr l) :: post) :=
    List.mem_filter.mpr ⟨List.mem_append_right _ (List.mem_cons_self _ _), hv⟩
  exact List.mem_map_of_mem (fun kv => toCamelCase kv.1) hmem

/-- C10 amended: in the Nested renderer a legality-passing key holding an
array or `null` contributes no field declaration and no deserialization
assignment (removing the entry changes neither), yet the serialization map
still contains an entry for it referencing the camel-cased identifier; the
referenced identifiers therefore need not all be declared — witnessed by
`\x7b"tags": []\x7d`, whose map references `tags` while no field is declared
— though a camel-case collision with another declared key can re-establish
the subset relation (see the counterexample). -/
theorem claim10_amended (pre post : List (String × Json)) (k : String) (l : List Json) :
    mngCategorize (pre ++ (k, Json.arr l) :: post) = mngCategorize (pre ++ post) ∧
    mngCategorize (pre ++ (k, Json.jnull) :: post) = mngCategorize (pre ++ post) ∧
    mngFromJsonLines (pre ++ (k, Json.arr l) :: post) = mngFromJsonLines (pre ++ post) ∧
    mngFromJsonLines (pre ++ (k, Json.jnull) :: post) = mngFromJsonLines (pre ++ post) ∧
    (isValidDartVariableName k = true →
      ("        \"" ++ k ++ "\": " ++ toCamelCase k) ∈
        mngToJsonAssigns (pre ++ (k, Json.arr l) :: post) ∧
      toCamelCase k ∈ mngToJsonRefIdents (pre ++ (k, Json.arr l) :: post)) ∧
    (mngToJsonRefIdents [("tags", Json.arr [])]).all
      (fun x => (mngDeclIdents (mngCategorize [("tags", Json.arr [])])).contains x) = false :=
  ⟨mngCategorize_skip_arr pre post k l,
   mngCategorize_skip_null pre post k,
   mngFromJsonLines_skip_arr pre post k l,
   mngFromJsonLines_skip_null pre post k,
   fun hv => ⟨mngToJsonAssigns_mem_arr pre post k l hv,
              mngToJsonRefIdents_mem_arr pre post k l hv⟩,
   by decide⟩

/-- C10 witness: the amended statement applied at `pre = [("x","v")]`,
`post = []`, key `tags` with an empty-array value, discharging the
legality hypothesis: the serialization map entry for `tags` and the
reference to the camel identifier `tags` are both present. -/
theorem claim10_witness :
    ("        \"tags\": " ++ toCamelCase "tags") ∈
      mngToJsonAssigns ([("x", Json.str "v")] ++ ("tags", Json.arr []) :: []) ∧
    toCamelCase "tags" ∈ mngToJsonRefIdents ([("x", Json.str "v")] ++ ("tags", Json.arr []) :: []) :=
  (claim10_amended [("x", Json.str "v")] [] "tags" []).2.2.2.2.1 (by decide)

/-- C10 counterexample: the claim's closing clause ("the set of identifiers
referenced in the serialization map is not a subset of the identifiers
declared as fields") fails for `\x7b"id": "x", "a_b": [], "aB": 1\x7d`:
`a_b` is a legality-passing array-valued key, yet its camel identifier `aB`
is also declared through the key `aB`, and `id` is declared through the
string-valued `id` key, so every referenced identifier is declared. -/
theorem claim10_cex :
    isValidDartVariableName "a_b" = true ∧
    (("a_b", Json.arr []) ∈
      jsEntries (Json.obj [("id", Json.str "x"), ("a_b", Json.arr []), ("aB", Json.num "1" true)])) ∧
    (mngToJsonRefIdents
        (jsEntries (Json.obj [("id", Json.str "x"), ("a_b", Json.arr []), ("aB", Json.num "1" true)]))).all
      (fun x =>
        (mngDeclIdents (mngCategorize
          (jsEntries (Json.obj [("id", Json.str "x"), ("a_b", Json.arr []), ("aB", Json.num "1" true)])))).contains x) = true :=
  ⟨by decide, List.Mem.tail _ (List.Mem.head _), by decide⟩
